import Mathlib

/-!
Verification of the compound disaster risk scoring engine of
`src/core_analytics.py` (class `CompoundDisasterAnalytics`).

Modelling choices:
* All numeric values are rationals (`ℚ`).  Every numeric literal in the
  source is an exact decimal, and the operations used (addition,
  subtraction, multiplication, division by constants, `min`, `max`,
  order comparisons, rounding to 3 decimals) are exact on rationals, so
  the rational semantics mirrors the Python computation.
* `round3` models Python's `round(x, 3)` (round half to even).
* The returned Python dict is modelled as an ordered association list
  `List (String × RVal)`; Python dicts preserve insertion order.
* `datetime.now().isoformat()` is environment-dependent; the caller of
  the model passes the timestamp string explicitly (`now`).
-/

namespace CDA

/-- Lines 128–130: `heat_risk = 0.0; if temp >= 95: heat_risk = min(1.0, (temp - 95) / 15)`. -/
def heat_risk_base (temp : ℚ) : ℚ :=
  if temp ≥ 95 then min 1 ((temp - 95) / 15) else 0

/-- Lines 133–134: `if temp >= 100: heat_risk = min(1.0, heat_risk + 0.2)`. -/
def heat_risk_b100 (temp : ℚ) : ℚ :=
  if temp ≥ 100 then min 1 (heat_risk_base temp + 0.2) else heat_risk_base temp

/-- Lines 135–136: `if temp >= 105: heat_risk = min(1.0, heat_risk + 0.3)`.
This is the final value of the local variable `heat_risk`. -/
def heat_risk (temp : ℚ) : ℚ :=
  if temp ≥ 105 then min 1 (heat_risk_b100 temp + 0.3) else heat_risk_b100 temp

/-- Lines 139–141: infrastructure stress risk
(`self.infrastructure_critical_threshold` is 1800). -/
def infra_risk (power_demand : ℚ) : ℚ :=
  if power_demand ≥ 1800 then min 1 ((power_demand - 1800) / 400) else 0

/-- Lines 144–146: `compound_multiplier = 1.5` when both heat and
infrastructure risk exceed 0.5, else `1.0`. -/
def compound_multiplier (heat_r infra_r : ℚ) : ℚ :=
  if heat_r > 0.5 ∧ infra_r > 0.5 then 1.5 else 1.0

/-- Lines 149–151: flood risk (`self.flood_threshold_precipitation` is 2.0). -/
def flood_risk (precip : ℚ) : ℚ :=
  if precip ≥ 2.0 then min 1 (precip / 5.0) else 0

/-- Lines 154–156: drought stress. -/
def drought_stress (temp precip : ℚ) : ℚ :=
  if temp > 95 ∧ precip < 0.5 then 0.3 else 0

/-- Lines 159–161: humidity factor. -/
def humidity_factor (temp humidity : ℚ) : ℚ :=
  if temp > 90 ∧ humidity > 70 then 1.3 else 1.0

/-- Lines 164–166: soil moisture factor. -/
def soil_factor (soil_moisture : ℚ) : ℚ :=
  if soil_moisture < 20 then 1.2 else 1.0

/-- Lines 124–175: `_calculate_risk_score`. -/
def calculate_risk_score (temp precip humidity power_demand soil_moisture : ℚ) : ℚ :=
  let hr := heat_risk temp
  let ir := infra_risk power_demand
  let cm := compound_multiplier hr ir
  let fr := flood_risk precip
  let ds := drought_stress temp precip
  let hf := humidity_factor temp humidity
  let sf := soil_factor soil_moisture
  let primary_risk := max hr fr
  let infrastructure_contribution := ir * 0.6
  let environmental_stress := (ds + (hf - 1.0) + (sf - 1.0)) * 0.3
  min 1 ((primary_risk + infrastructure_contribution + environmental_stress) * cm)

/-- Lines 46–51: `self.risk_thresholds`, in declaration order. -/
def risk_thresholds : List (String × ℚ × ℚ) :=
  [("Low", 0.0, 0.3), ("Moderate", 0.3, 0.6), ("High", 0.6, 0.8), ("Extreme", 0.8, 1.0)]

/-- The `for level, (min_score, max_score) in ...` loop of `_get_risk_level`
(lines 179–182): first bucket with `min_score <= risk_score < max_score`,
else the fallthrough value `"Extreme"`. -/
def level_loop : List (String × ℚ × ℚ) → ℚ → String
  | [], _ => "Extreme"
  | (level, lo, hi) :: rest, risk_score =>
      if lo ≤ risk_score ∧ risk_score < hi then level else level_loop rest risk_score

/-- Lines 177–182: `_get_risk_level`. -/
def get_risk_level (risk_score : ℚ) : String :=
  level_loop risk_thresholds risk_score

/-- Lines 187–193: the `anomaly_conditions` list. -/
def anomaly_conditions (temp precip humidity power_demand : ℚ) : List Bool :=
  [ decide (temp > 103),
    decide (precip > 4.0),
    decide (power_demand > 1900),
    decide (temp > 100 ∧ humidity > 80),
    decide (temp > 95 ∧ precip > 3.0) ]

/-- Lines 184–195: `_detect_anomaly` (`any(anomaly_conditions)`). -/
def detect_anomaly (temp precip humidity power_demand : ℚ) : Bool :=
  (anomaly_conditions temp precip humidity power_demand).any (fun b => b)

/-- Lines 202–209: the `Extreme` tier block. -/
def extreme_recommendations : List String :=
  [ "🚨 EMERGENCY: Activate all cooling centers immediately",
    "⚡ CRITICAL: Monitor power grid for imminent failures",
    "📱 URGENT: Issue emergency heat warnings to all residents",
    "🏥 ALERT: Pre-position ambulances and medical teams",
    "💧 DEPLOY: Emergency water distribution teams",
    "🚑 ACTIVATE: Emergency response coordination center" ]

/-- Lines 212–218: the `High` tier block. -/
def high_recommendations : List String :=
  [ "🏠 Open additional cooling centers",
    "⚡ Monitor power grid stress levels",
    "📢 Issue heat advisory to vulnerable populations",
    "🚑 Increase emergency medical readiness",
    "💧 Ensure adequate water supplies" ]

/-- Lines 221–226: the `Moderate` tier block. -/
def moderate_recommendations : List String :=
  [ "🌡️ Monitor heat conditions closely",
    "📊 Check vulnerable population welfare",
    "⚡ Review power grid status",
    "💧 Remind public about heat safety" ]

/-- Lines 197–238: `_generate_recommendations`. -/
def generate_recommendations (risk_level : String) (temp precip power_demand : ℚ) :
    List String :=
  let recs : List String := []
  let recs :=
    if risk_level = "Extreme" then recs ++ extreme_recommendations
    else if risk_level = "High" then recs ++ high_recommendations
    else if risk_level = "Moderate" then recs ++ moderate_recommendations
    else recs
  let recs := if temp > 100 then recs ++ ["🔥 EXTREME HEAT: Cancel outdoor activities"] else recs
  let recs :=
    if power_demand > 1850 then recs ++ ["⚡ GRID STRESS: Prepare for potential rolling blackouts"]
    else recs
  if precip > 3.0 then recs ++ ["🌊 FLOOD RISK: Monitor drainage systems"] else recs

/-- Lines 240–249: `_assess_infrastructure_impact`. -/
def assess_infrastructure_impact (power_demand : ℚ) : String :=
  if power_demand > 1900 then "Critical"
  else if power_demand > 1800 then "High"
  else if power_demand > 1600 then "Moderate"
  else "Low"

/-- Round a rational to the nearest integer, ties to even
(the rounding mode of Python's `round`). -/
def round_half_even (q : ℚ) : ℤ :=
  let f := ⌊q⌋
  let r := q - (f : ℚ)
  if r < 1/2 then f
  else if 1/2 < r then f + 1
  else if Even f then f else f + 1

/-- Python's `round(x, 3)`. -/
def round3 (q : ℚ) : ℚ :=
  (round_half_even (q * 1000) : ℚ) / 1000

/-- Values occurring in the result dict of `predict_compound_risk`. -/
inductive RVal : Type
  | num (q : ℚ)
  | str (s : String)
  | bool (b : Bool)
  | strList (l : List String)
deriving DecidableEq

/-- A fully numeric input observation (the five features after extraction,
lines 80–84). -/
structure Observation where
  temperature : ℚ
  precipitation : ℚ
  humidity : ℚ
  power_demand : ℚ
  soil_moisture : ℚ
deriving DecidableEq

/-- Lines 86–115: the success branch of `predict_compound_risk` on a fully
numeric observation, returning the result dict as an ordered association
list.  `now` stands for `datetime.now().isoformat()`. -/
def predict_compound_risk_num (now : String) (o : Observation) : List (String × RVal) :=
  let risk_score :=
    calculate_risk_score o.temperature o.precipitation o.humidity o.power_demand o.soil_moisture
  let risk_level := get_risk_level risk_score
  let is_anomaly := detect_anomaly o.temperature o.precipitation o.humidity o.power_demand
  let recommendations :=
    generate_recommendations risk_level o.temperature o.precipitation o.power_demand
  let confidence := min 0.95 (0.7 + risk_score * 0.25)
  [ ("risk_score", RVal.num (round3 risk_score)),
    ("risk_level", RVal.str risk_level),
    ("is_anomaly", RVal.bool is_anomaly),
    ("recommendations", RVal.strList recommendations),
    ("confidence", RVal.num (round3 confidence)),
    ("infrastructure_impact", RVal.str (assess_infrastructure_impact o.power_demand)),
    ("analysis_time", RVal.str now) ]

/-- A Python value supplied in `input_data`: either a number or a
non-numeric value (modelled by a string). -/
inductive PyVal : Type
  | num (q : ℚ)
  | str (s : String)
deriving DecidableEq

/-- An order comparison between a `PyVal` and a number: Python raises
`TypeError` when the value is not numeric. -/
def PyVal.toNum : PyVal → Except String ℚ
  | .num q => .ok q
  | .str _ => .error "unsupported operand types for order comparison"

/-- The `input_data` dict: each key optionally present (lines 80–84 supply
defaults via `.get`). -/
structure InputData where
  temperature : Option PyVal := none
  precipitation : Option PyVal := none
  humidity : Option PyVal := none
  power_demand : Option PyVal := none
  soil_moisture : Option PyVal := none
deriving DecidableEq

/-- The body of the `try:` block of `predict_compound_risk` (lines 78–115)
over possibly non-numeric inputs.  A `TypeError` surfaces at the first
order comparison that touches a non-numeric value; the comparisons are
forced in source order: `temp` (line 129), `power_demand` (line 140),
`precip` (line 150), `humidity` (line 160, but only when `temp > 90`
because `and` short-circuits), `soil_moisture` (line 165).  When
`temp ≤ 90` the humidity value is never read by the computation (the
humidity factor stays 1.0 and the heat-index anomaly clause requires
`temp > 100`), so an arbitrary numeric stand-in (the default 50) yields
the same result dict. -/
def scoring_body (now : String) (input_data : InputData) :
    Except String (List (String × RVal)) := do
  let temp := input_data.temperature.getD (.num 75)
  let precip := input_data.precipitation.getD (.num 0.1)
  let humidity := input_data.humidity.getD (.num 50)
  let power_demand := input_data.power_demand.getD (.num 1500)
  let soil_moisture := input_data.soil_moisture.getD (.num 30)
  let t ← temp.toNum
  let pd ← power_demand.toNum
  let p ← precip.toNum
  let h ← if t > 90 then humidity.toNum else pure 50
  let sm ← soil_moisture.toNum
  pure (predict_compound_risk_num now ⟨t, p, h, pd, sm⟩)

/-- Lines 56–122: `predict_compound_risk`, including the `except` branch
(lines 117–122) that converts any exception into a degraded result dict. -/
def predict_compound_risk (now : String) (input_data : InputData) :
    List (String × RVal) :=
  match scoring_body now input_data with
  | .ok entries => entries
  | .error e =>
      [ ("error", RVal.str ("Risk prediction failed: " ++ e)),
        ("risk_score", RVal.num 0.0),
        ("risk_level", RVal.str "Unknown") ]

/-!
Spec-side definitions.  These follow the wording of the specification and
of the claims, to be compared with the definitions above that were
translated from the source.
-/

/-- Spec wording: heat risk base is `0 if temp<95 else min(1,(temp-95)/15)`. -/
def spec_heat_base (temp : ℚ) : ℚ :=
  if temp < 95 then 0 else min 1 ((temp - 95) / 15)

/-- Spec wording: additively bumped by +0.2 if temp≥100, re-clamped to ≤1. -/
def spec_heat_b100 (temp : ℚ) : ℚ :=
  if temp ≥ 100 then min 1 (spec_heat_base temp + 0.2) else spec_heat_base temp

/-- Spec wording: a further +0.3 if temp≥105, re-clamped to ≤1. -/
def spec_heat (temp : ℚ) : ℚ :=
  if temp ≥ 105 then min 1 (spec_heat_b100 temp + 0.3) else spec_heat_b100 temp

/-- Spec wording: infraRisk is `0 if powerDemand<1800 else min(1,(powerDemand-1800)/400)`. -/
def spec_infra (power_demand : ℚ) : ℚ :=
  if power_demand < 1800 then 0 else min 1 ((power_demand - 1800) / 400)

/-- Spec wording: floodRisk is `0 if precip<2.0 else min(1,precip/5.0)`. -/
def spec_flood (precip : ℚ) : ℚ :=
  if precip < 2.0 then 0 else min 1 (precip / 5.0)

/-- The spec's composite risk formula (spec §4.1; claim C1).  The drought,
humidity, soil and compound-multiplier clauses are worded in the claim
exactly as in the code, so those definitions are shared. -/
def spec_risk_score (temp precip humidity power_demand soil_moisture : ℚ) : ℚ :=
  let heatRisk := spec_heat temp
  let infraRisk := spec_infra power_demand
  let floodRisk := spec_flood precip
  let droughtStress := drought_stress temp precip
  let humidityFactor := humidity_factor temp humidity
  let soilFactor := soil_factor soil_moisture
  let compoundMultiplier := compound_multiplier heatRisk infraRisk
  let primary := max heatRisk floodRisk
  let infraContribution := infraRisk * 0.6
  let envStress := (droughtStress + (humidityFactor - 1) + (soilFactor - 1)) * 0.3
  min 1 ((primary + infraContribution + envStress) * compoundMultiplier)

/-- The spec's half-open risk buckets, top bucket absorbing any score ≥ 0.8
(spec §3/§4; claims C2/C10). -/
def spec_bucket (risk_score : ℚ) : String :=
  if 0 ≤ risk_score ∧ risk_score < 0.3 then "Low"
  else if 0.3 ≤ risk_score ∧ risk_score < 0.6 then "Moderate"
  else if 0.6 ≤ risk_score ∧ risk_score < 0.8 then "High"
  else "Extreme"

/-- The spec's tier block for recommendations (claim C8). -/
def spec_tier_block (risk_level : String) : List String :=
  if risk_level = "Extreme" then extreme_recommendations
  else if risk_level = "High" then high_recommendations
  else if risk_level = "Moderate" then moderate_recommendations
  else []

/-! ### Helper lemmas: spec components agree with the code components -/

theorem spec_heat_base_eq (t : ℚ) : spec_heat_base t = heat_risk_base t := by
  unfold spec_heat_base heat_risk_base
  rcases lt_or_le t 95 with h | h
  · rw [if_pos h, if_neg (not_le.mpr h)]
  · rw [if_neg (not_lt.mpr h), if_pos h]

theorem spec_heat_eq (t : ℚ) : spec_heat t = heat_risk t := by
  unfold spec_heat heat_risk spec_heat_b100 heat_risk_b100
  rw [spec_heat_base_eq]

theorem spec_infra_eq (pd : ℚ) : spec_infra pd = infra_risk pd := by
  unfold spec_infra infra_risk
  rcases lt_or_le pd 1800 with h | h
  · rw [if_pos h, if_neg (not_le.mpr h)]
  · rw [if_neg (not_lt.mpr h), if_pos h]

theorem spec_flood_eq (p : ℚ) : spec_flood p = flood_risk p := by
  unfold spec_flood flood_risk
  rcases lt_or_le p 2.0 with h | h
  · rw [if_pos h, if_neg (not_le.mpr h)]
  · rw [if_neg (not_lt.mpr h), if_pos h]

/-! ### Helper lemmas: bounds on the sub-scores -/

theorem heat_risk_base_nonneg (t : ℚ) : 0 ≤ heat_risk_base t := by
  unfold heat_risk_base
  split_ifs with h
  · exact le_min (by norm_num) (div_nonneg (by linarith) (by norm_num))
  · exact le_rfl

theorem heat_risk_base_le_one (t : ℚ) : heat_risk_base t ≤ 1 := by
  unfold heat_risk_base
  split_ifs
  · exact min_le_left _ _
  · norm_num

theorem heat_risk_b100_nonneg (t : ℚ) : 0 ≤ heat_risk_b100 t := by
  unfold heat_risk_b100
  split_ifs
  · exact le_min (by norm_num) (by linarith [heat_risk_base_nonneg t])
  · exact heat_risk_base_nonneg t

theorem heat_risk_b100_le_one (t : ℚ) : heat_risk_b100 t ≤ 1 := by
  unfold heat_risk_b100
  split_ifs
  · exact min_le_left _ _
  · exact heat_risk_base_le_one t

theorem heat_risk_nonneg (t : ℚ) : 0 ≤ heat_risk t := by
  unfold heat_risk
  split_ifs
  · exact le_min (by norm_num) (by linarith [heat_risk_b100_nonneg t])
  · exact heat_risk_b100_nonneg t

theorem heat_risk_le_one (t : ℚ) : heat_risk t ≤ 1 := by
  unfold heat_risk
  split_ifs
  · exact min_le_left _ _
  · exact heat_risk_b100_le_one t

theorem infra_risk_nonneg (pd : ℚ) : 0 ≤ infra_risk pd := by
  unfold infra_risk
  split_ifs with h
  · exact le_min (by norm_num) (div_nonneg (by linarith) (by norm_num))
  · exact le_rfl

theorem flood_risk_nonneg (p : ℚ) : 0 ≤ flood_risk p := by
  unfold flood_risk
  split_ifs with h
  · exact le_min (by norm_num) (div_nonneg (by linarith) (by norm_num))
  · exact le_rfl

theorem drought_stress_nonneg (t p : ℚ) : 0 ≤ drought_stress t p := by
  unfold drought_stress
  split_ifs <;> norm_num

theorem one_le_humidity_factor (t h : ℚ) : 1 ≤ humidity_factor t h := by
  unfold humidity_factor
  split_ifs <;> norm_num

theorem one_le_soil_factor (sm : ℚ) : 1 ≤ soil_factor sm := by
  unfold soil_factor
  split_ifs <;> norm_num

theorem one_le_compound_multiplier (a b : ℚ) : 1 ≤ compound_multiplier a b := by
  unfold compound_multiplier
  split_ifs <;> norm_num

theorem calculate_risk_score_nonneg (t p h pd sm : ℚ) :
    0 ≤ calculate_risk_score t p h pd sm := by
  simp only [calculate_risk_score]
  refine le_min (by norm_num) ?_
  have h1 := heat_risk_nonneg t
  have h2 := infra_risk_nonneg pd
  have h3 := flood_risk_nonneg p
  have h4 := drought_stress_nonneg t p
  have h5 := one_le_humidity_factor t h
  have h6 := one_le_soil_factor sm
  have h7 := one_le_compound_multiplier (heat_risk t) (infra_risk pd)
  have hmax : (0:ℚ) ≤ max (heat_risk t) (flood_risk p) := le_max_of_le_left h1
  have hbase : (0:ℚ) ≤ max (heat_risk t) (flood_risk p) + infra_risk pd * 0.6 +
      (drought_stress t p + (humidity_factor t h - 1.0) + (soil_factor sm - 1.0)) * 0.3 := by
    linarith
  exact mul_nonneg hbase (by linarith)

theorem calculate_risk_score_le_one (t p h pd sm : ℚ) :
    calculate_risk_score t p h pd sm ≤ 1 := by
  simp only [calculate_risk_score]
  exact min_le_left _ _

/-! ### Helper lemmas: monotonicity in temperature -/

theorem heat_risk_base_mono {a b : ℚ} (hab : a ≤ b) :
    heat_risk_base a ≤ heat_risk_base b := by
  unfold heat_risk_base
  split_ifs with h1 h2 h2
  · exact min_le_min le_rfl (by linarith)
  · exact absurd (le_trans h1 hab) h2
  · exact le_min (by norm_num) (div_nonneg (by linarith) (by norm_num))
  · exact le_rfl

theorem heat_risk_b100_mono {a b : ℚ} (hab : a ≤ b) :
    heat_risk_b100 a ≤ heat_risk_b100 b := by
  have hbase := heat_risk_base_mono hab
  unfold heat_risk_b100
  split_ifs with h1 h2 h2
  · exact min_le_min le_rfl (by linarith)
  · exact absurd (le_trans h1 hab) h2
  · exact le_min (heat_risk_base_le_one a) (by linarith [heat_risk_base_nonneg b])
  · exact hbase

theorem heat_risk_mono {a b : ℚ} (hab : a ≤ b) : heat_risk a ≤ heat_risk b := by
  have hb100 := heat_risk_b100_mono hab
  unfold heat_risk
  split_ifs with h1 h2 h2
  · exact min_le_min le_rfl (by linarith)
  · exact absurd (le_trans h1 hab) h2
  · exact le_min (heat_risk_b100_le_one a) (by linarith [heat_risk_b100_nonneg b])
  · exact hb100

theorem compound_multiplier_mono {a b i : ℚ} (hab : a ≤ b) :
    compound_multiplier a i ≤ compound_multiplier b i := by
  unfold compound_multiplier
  split_ifs with h1 h2 h2
  · exact le_rfl
  · exact absurd ⟨lt_of_lt_of_le h1.1 hab, h1.2⟩ h2
  · norm_num
  · exact le_rfl

/-! ### Helper lemmas: rounding -/

theorem le_round_half_even {n : ℤ} {q : ℚ} (h : (n:ℚ) ≤ q) : n ≤ round_half_even q := by
  simp only [round_half_even]
  have hn : n ≤ ⌊q⌋ := Int.le_floor.mpr h
  split_ifs <;> omega

theorem round_half_even_le {q : ℚ} {n : ℤ} (h : q ≤ (n:ℚ)) : round_half_even q ≤ n := by
  simp only [round_half_even]
  have hf : ⌊q⌋ ≤ n := by exact_mod_cast le_trans (Int.floor_le q) h
  have key : ¬(q - (⌊q⌋:ℚ) < 1/2) → ⌊q⌋ + 1 ≤ n := by
    intro h1
    push_neg at h1
    have hlt : (⌊q⌋:ℚ) < (n:ℚ) := by linarith
    have : ⌊q⌋ < n := by exact_mod_cast hlt
    omega
  split_ifs with h1 h2 h3
  · exact hf
  · exact key h1
  · exact hf
  · exact key h1

theorem le_round3 {n : ℤ} {q : ℚ} (h : (n:ℚ)/1000 ≤ q) : (n:ℚ)/1000 ≤ round3 q := by
  unfold round3
  have h1 : (n:ℚ) ≤ q * 1000 := by linarith
  have h2 : n ≤ round_half_even (q * 1000) := le_round_half_even h1
  have h3 : (n:ℚ) ≤ (round_half_even (q * 1000) : ℚ) := by exact_mod_cast h2
  linarith

theorem round3_le {q : ℚ} {n : ℤ} (h : q ≤ (n:ℚ)/1000) : round3 q ≤ (n:ℚ)/1000 := by
  unfold round3
  have h1 : q * 1000 ≤ (n:ℚ) := by linarith
  have h2 : round_half_even (q * 1000) ≤ n := round_half_even_le h1
  have h3 : (round_half_even (q * 1000) : ℚ) ≤ (n:ℚ) := by exact_mod_cast h2
  linarith

/-! ### Helper lemmas: classification and the success dict -/

theorem get_risk_level_eq_spec_bucket (rs : ℚ) : get_risk_level rs = spec_bucket rs := by
  norm_num [get_risk_level, risk_thresholds, level_loop, spec_bucket]

theorem lookup_risk_score (now : String) (o : Observation) :
    (predict_compound_risk_num now o).lookup "risk_score" =
      some (RVal.num (round3 (calculate_risk_score o.temperature o.precipitation
        o.humidity o.power_demand o.soil_moisture))) := by
  simp [predict_compound_risk_num, List.lookup]

theorem lookup_risk_level (now : String) (o : Observation) :
    (predict_compound_risk_num now o).lookup "risk_level" =
      some (RVal.str (get_risk_level (calculate_risk_score o.temperature o.precipitation
        o.humidity o.power_demand o.soil_moisture))) := by
  simp [predict_compound_risk_num, List.lookup]

theorem lookup_confidence (now : String) (o : Observation) :
    (predict_compound_risk_num now o).lookup "confidence" =
      some (RVal.num (round3 (min 0.95 (0.7 + calculate_risk_score o.temperature
        o.precipitation o.humidity o.power_demand o.soil_moisture * 0.25)))) := by
  simp [predict_compound_risk_num, List.lookup]

theorem lookup_recommendations (now : String) (o : Observation) :
    (predict_compound_risk_num now o).lookup "recommendations" =
      some (RVal.strList (generate_recommendations
        (get_risk_level (calculate_risk_score o.temperature o.precipitation o.humidity
          o.power_demand o.soil_moisture))
        o.temperature o.precipitation o.power_demand)) := by
  simp [predict_compound_risk_num, List.lookup]

/-! ### Helper lemmas: numeric inputs take the success path, and the stand-in
humidity value used by `scoring_body` when `temp ≤ 90` is irrelevant -/

theorem humidity_factor_of_le90 {t : ℚ} (hnot : ¬ 90 < t) (h : ℚ) :
    humidity_factor t h = 1.0 := by
  unfold humidity_factor
  rw [if_neg]
  rintro ⟨h1, -⟩
  exact hnot h1

theorem detect_anomaly_of_le90 {t : ℚ} (hnot : ¬ 90 < t) (p h h' pd : ℚ) :
    detect_anomaly t p h pd = detect_anomaly t p h' pd := by
  have h100 : ¬(t > 100) := fun hc => hnot (by linarith)
  simp [detect_anomaly, anomaly_conditions, h100]

theorem predict_num_humidity_of_le90 {t : ℚ} (hnot : ¬ 90 < t)
    (now : String) (p h h' pd sm : ℚ) :
    predict_compound_risk_num now ⟨t, p, h, pd, sm⟩ =
      predict_compound_risk_num now ⟨t, p, h', pd, sm⟩ := by
  have hcalc : calculate_risk_score t p h pd sm = calculate_risk_score t p h' pd sm := by
    simp only [calculate_risk_score, humidity_factor_of_le90 hnot]
  simp only [predict_compound_risk_num, hcalc, detect_anomaly_of_le90 hnot p h h' pd]

theorem predict_on_numeric (now : String) (t p h pd sm : ℚ) :
    predict_compound_risk now
      ⟨some (.num t), some (.num p), some (.num h), some (.num pd), some (.num sm)⟩ =
      predict_compound_risk_num now ⟨t, p, h, pd, sm⟩ := by
  unfold predict_compound_risk scoring_body
  simp only [Option.getD_some, PyVal.toNum]
  by_cases h90 : (90:ℚ) < t
  · simp [bind, Except.bind, pure, Except.pure, h90]
  · simp [bind, Except.bind, pure, Except.pure, h90,
      predict_num_humidity_of_le90 h90 now p 50 h pd sm]

/-! ### The claims -/

/-- Claim C1: for every numeric observation, the risk score computed by
`predict_compound_risk` equals the spec's composite formula (heat risk with
its two re-clamped additive bumps, infrastructure risk, flood risk, drought
stress, humidity and soil factors, compound multiplier, and the clamped
weighted composite). -/
theorem C1_risk_score_matches_spec_formula :
    (∀ t p h pd sm : ℚ, calculate_risk_score t p h pd sm = spec_risk_score t p h pd sm) ∧
    (∀ (now : String) (o : Observation),
      (predict_compound_risk_num now o).lookup "risk_score" =
        some (RVal.num (round3 (spec_risk_score o.temperature o.precipitation
          o.humidity o.power_demand o.soil_moisture)))) := by
  have key : ∀ t p h pd sm : ℚ,
      calculate_risk_score t p h pd sm = spec_risk_score t p h pd sm := by
    intro t p h pd sm
    norm_num [calculate_risk_score, spec_risk_score, spec_heat_eq, spec_infra_eq, spec_flood_eq]
  refine ⟨key, fun now o => ?_⟩
  rw [lookup_risk_score, key]

/-- Claim C2, counterexample: at the observation with precipitation 2.9995
(other fields at their defaults) the internal score is 0.5999, so the
returned `risk_score` field is the rounded 0.6, which lies in the High
bucket, while the returned `risk_level` is Moderate: the riskLevel field
does not match the bucket containing the returned riskScore field. -/
theorem C2_counterexample_rounded_score_crosses_bucket :
    (predict_compound_risk_num "t0" ⟨75, 2.9995, 50, 1500, 30⟩).lookup "risk_score" =
      some (RVal.num 0.6) ∧
    (predict_compound_risk_num "t0" ⟨75, 2.9995, 50, 1500, 30⟩).lookup "risk_level" =
      some (RVal.str "Moderate") ∧
    spec_bucket 0.6 = "High" ∧ "Moderate" ≠ "High" := by
  refine ⟨?_, ?_, by norm_num [spec_bucket], by decide⟩
  · norm_num [predict_compound_risk_num, List.lookup, calculate_risk_score, heat_risk,
      heat_risk_b100, heat_risk_base, infra_risk, compound_multiplier, flood_risk,
      drought_stress, humidity_factor, soil_factor, min_def, max_def, round3,
      round_half_even, get_risk_level, risk_thresholds, level_loop]
  · norm_num [predict_compound_risk_num, List.lookup, calculate_risk_score, heat_risk,
      heat_risk_b100, heat_risk_base, infra_risk, compound_multiplier, flood_risk,
      drought_stress, humidity_factor, soil_factor, min_def, max_def, round3,
      round_half_even, get_risk_level, risk_thresholds, level_loop]
    rfl

/-- Claim C2, amended: the `riskLevel` field matches the bucket containing
the internal (unrounded) risk score under the half-open ranges
Low [0,0.3), Moderate [0.3,0.6), High [0.6,0.8), Extreme for ≥ 0.8; the
returned `risk_score` field is that score rounded to 3 decimals and can
fall in an adjacent bucket when rounding crosses a boundary. -/
theorem C2_amended_level_matches_unrounded_bucket :
    (∀ rs : ℚ, get_risk_level rs = spec_bucket rs) ∧
    (∀ (now : String) (o : Observation),
      (predict_compound_risk_num now o).lookup "risk_level" =
        some (RVal.str (spec_bucket (calculate_risk_score o.temperature o.precipitation
          o.humidity o.power_demand o.soil_moisture)))) := by
  refine ⟨get_risk_level_eq_spec_bucket, fun now o => ?_⟩
  rw [lookup_risk_level, get_risk_level_eq_spec_bucket]

/-- Claim C3: for every numeric observation the risk score lies in [0,1],
the confidence equals `min(0.95, 0.7 + riskScore*0.25)` as a function of
the (unrounded) risk score, it lies in [0.70, 0.95], and both returned
fields are these values rounded to 3 decimals, still within the bounds. -/
theorem C3_score_and_confidence_invariants :
    ∀ (now : String) (o : Observation),
      0 ≤ calculate_risk_score o.temperature o.precipitation o.humidity
            o.power_demand o.soil_moisture ∧
      calculate_risk_score o.temperature o.precipitation o.humidity
            o.power_demand o.soil_moisture ≤ 1 ∧
      0.7 ≤ min 0.95 (0.7 + calculate_risk_score o.temperature o.precipitation o.humidity
            o.power_demand o.soil_moisture * 0.25) ∧
      min 0.95 (0.7 + calculate_risk_score o.temperature o.precipitation o.humidity
            o.power_demand o.soil_moisture * 0.25) ≤ 0.95 ∧
      (predict_compound_risk_num now o).lookup "confidence" =
        some (RVal.num (round3 (min 0.95 (0.7 + calculate_risk_score o.temperature
          o.precipitation o.humidity o.power_demand o.soil_moisture * 0.25)))) ∧
      (predict_compound_risk_num now o).lookup "risk_score" =
        some (RVal.num (round3 (calculate_risk_score o.temperature o.precipitation
          o.humidity o.power_demand o.soil_moisture))) ∧
      0 ≤ round3 (calculate_risk_score o.temperature o.precipitation o.humidity
            o.power_demand o.soil_moisture) ∧
      round3 (calculate_risk_score o.temperature o.precipitation o.humidity
            o.power_demand o.soil_moisture) ≤ 1 ∧
      0.7 ≤ round3 (min 0.95 (0.7 + calculate_risk_score o.temperature o.precipitation
            o.humidity o.power_demand o.soil_moisture * 0.25)) ∧
      round3 (min 0.95 (0.7 + calculate_risk_score o.temperature o.precipitation
            o.humidity o.power_demand o.soil_moisture * 0.25)) ≤ 0.95 := by
  intro now o
  have h0 := calculate_risk_score_nonneg o.temperature o.precipitation o.humidity
    o.power_demand o.soil_moisture
  have h1 := calculate_risk_score_le_one o.temperature o.precipitation o.humidity
    o.power_demand o.soil_moisture
  set rs := calculate_risk_score o.temperature o.precipitation o.humidity
    o.power_demand o.soil_moisture with hrs
  have hc0 : (0.7:ℚ) ≤ min 0.95 (0.7 + rs * 0.25) := le_min (by norm_num) (by linarith)
  have hc1 : min (0.95:ℚ) (0.7 + rs * 0.25) ≤ 0.95 := min_le_left _ _
  have hr0 : (0:ℚ) ≤ round3 rs := by
    have := le_round3 (n := 0) (q := rs) (by push_cast; linarith)
    push_cast at this
    linarith
  have hr1 : round3 rs ≤ 1 := by
    have := round3_le (n := 1000) (q := rs) (by push_cast; linarith)
    push_cast at this
    linarith
  have hq0 : (0.7:ℚ) ≤ round3 (min 0.95 (0.7 + rs * 0.25)) := by
    have := le_round3 (n := 700) (q := min 0.95 (0.7 + rs * 0.25)) (by push_cast; linarith)
    push_cast at this
    linarith
  have hq1 : round3 (min (0.95:ℚ) (0.7 + rs * 0.25)) ≤ 0.95 := by
    have := round3_le (n := 950) (q := min 0.95 (0.7 + rs * 0.25)) (by push_cast; linarith)
    push_cast at this
    linarith
  exact ⟨h0, h1, hc0, hc1, lookup_confidence now o, lookup_risk_score now o,
    hr0, hr1, hq0, hq1⟩

/-- Claim C4: `is_anomaly` holds iff at least one of exactly the five
conditions temp>103, precip>4.0, powerDemand>1900, (temp>100 ∧ humidity>80),
(temp>95 ∧ precip>3.0) holds, and the strict >103 comparison means that
temperature exactly 103 with otherwise benign inputs triggers no anomaly. -/
theorem C4_anomaly_predicate_iff :
    (∀ t p h pd : ℚ, detect_anomaly t p h pd = true ↔
      (t > 103 ∨ p > 4.0 ∨ pd > 1900 ∨ (t > 100 ∧ h > 80) ∨ (t > 95 ∧ p > 3.0))) ∧
    detect_anomaly 103 0.1 65 1850 = false := by
  constructor
  · intro t p h pd
    simp [detect_anomaly, anomaly_conditions]
  · norm_num [detect_anomaly, anomaly_conditions]

/-- Claim C5: whenever the body of the `try:` block fails (a numeric
coercion failure, e.g. a non-numeric temperature), `predict_compound_risk`
returns the degraded dict with an error message field, riskScore 0.0 and
riskLevel "Unknown" instead of propagating the exception, and "Unknown" is
distinct from every value of the normal Low/Moderate/High/Extreme enum. -/
theorem C5_error_path_degraded_result (now : String) (d : InputData) (e : String)
    (h : scoring_body now d = .error e) :
    predict_compound_risk now d =
      [ ("error", RVal.str ("Risk prediction failed: " ++ e)),
        ("risk_score", RVal.num 0.0),
        ("risk_level", RVal.str "Unknown") ] ∧
    "Unknown" ∉ ["Low", "Moderate", "High", "Extreme"] := by
  unfold predict_compound_risk
  rw [h]
  exact ⟨rfl, by decide⟩

/-- Witness for C5 at a concrete non-numeric temperature. -/
theorem C5_witness_nonnumeric_temperature :
    scoring_body "t0" { temperature := some (PyVal.str "hot") } =
      .error "unsupported operand types for order comparison" ∧
    (predict_compound_risk "t0" { temperature := some (PyVal.str "hot") } =
      [ ("error", RVal.str ("Risk prediction failed: " ++
          "unsupported operand types for order comparison")),
        ("risk_score", RVal.num 0.0),
        ("risk_level", RVal.str "Unknown") ] ∧
     "Unknown" ∉ ["Low", "Moderate", "High", "Extreme"]) :=
  ⟨rfl, C5_error_path_degraded_result "t0" { temperature := some (PyVal.str "hot") }
    "unsupported operand types for order comparison" rfl⟩

/-- Claim C6: holding precipitation, humidity, power demand and soil
moisture fixed, for temperatures 95 < t1 < t2, both the heat-risk
sub-score and the overall risk score at t2 are ≥ those at t1. -/
theorem C6_monotone_in_temperature (t1 t2 p h pd sm : ℚ)
    (h95 : 95 < t1) (h12 : t1 < t2) :
    heat_risk t1 ≤ heat_risk t2 ∧
    calculate_risk_score t1 p h pd sm ≤ calculate_risk_score t2 p h pd sm := by
  have hmono := heat_risk_mono (le_of_lt h12)
  refine ⟨hmono, ?_⟩
  have hds : drought_stress t1 p = drought_stress t2 p := by
    unfold drought_stress
    by_cases hp : p < 0.5
    · rw [if_pos ⟨h95, hp⟩, if_pos ⟨lt_trans h95 h12, hp⟩]
    · rw [if_neg (fun hc => hp hc.2), if_neg (fun hc => hp hc.2)]
  have hhf : humidity_factor t1 h = humidity_factor t2 h := by
    unfold humidity_factor
    by_cases hh : h > 70
    · rw [if_pos ⟨by linarith, hh⟩, if_pos ⟨by linarith, hh⟩]
    · rw [if_neg (fun hc => hh hc.2), if_neg (fun hc => hh hc.2)]
  simp only [calculate_risk_score, hds, hhf]
  apply min_le_min le_rfl
  have hcm := compound_multiplier_mono (i := infra_risk pd) hmono
  have hcm1 := one_le_compound_multiplier (heat_risk t1) (infra_risk pd)
  have hmax : max (heat_risk t1) (flood_risk p) ≤ max (heat_risk t2) (flood_risk p) :=
    max_le_max hmono le_rfl
  have hbase2 : (0:ℚ) ≤ max (heat_risk t2) (flood_risk p) + infra_risk pd * 0.6 +
      (drought_stress t2 p + (humidity_factor t2 h - 1.0) + (soil_factor sm - 1.0)) * 0.3 := by
    have := heat_risk_nonneg t2
    have := infra_risk_nonneg pd
    have := drought_stress_nonneg t2 p
    have := one_le_humidity_factor t2 h
    have := one_le_soil_factor sm
    have : (0:ℚ) ≤ max (heat_risk t2) (flood_risk p) :=
      le_max_of_le_left (heat_risk_nonneg t2)
    linarith [heat_risk_nonneg t2, infra_risk_nonneg pd, drought_stress_nonneg t2 p,
      one_le_humidity_factor t2 h, one_le_soil_factor sm]
  exact mul_le_mul (by linarith) hcm (by linarith) hbase2

/-- Witness for C6 at t1 = 100, t2 = 105 with default remaining inputs. -/
theorem C6_witness :
    (95:ℚ) < 100 ∧ (100:ℚ) < 105 ∧
    (heat_risk 100 ≤ heat_risk 105 ∧
     calculate_risk_score 100 0.1 50 1500 30 ≤ calculate_risk_score 105 0.1 50 1500 30) :=
  ⟨by norm_num, by norm_num,
   C6_monotone_in_temperature 100 105 0.1 50 1500 30 (by norm_num) (by norm_num)⟩

/-- Claim C7, counterexample: at temp=103, precip=0.1, humidity=65,
powerDemand=1850, soilMoisture=30 the drought-stress clause fires
(103 > 95 and 0.1 < 0.5), so the environmental stress term is 0.09 rather
than the claimed (0+0+0)*0.3 = 0, and the total is 539/600 ≈ 0.898 rather
than ≈ 0.808. -/
theorem C7_counterexample_drought_stress_fires :
    drought_stress 103 0.1 = 0.3 ∧
    (drought_stress 103 0.1 + (humidity_factor 103 65 - 1.0) + (soil_factor 30 - 1.0)) * 0.3
      = 0.09 ∧
    calculate_risk_score 103 0.1 65 1850 30 = 539/600 ∧
    (539:ℚ)/600 ≠ 0.808 := by
  refine ⟨?_, ?_, ?_, by norm_num⟩ <;>
    norm_num [calculate_risk_score, heat_risk, heat_risk_b100, heat_risk_base, infra_risk,
      compound_multiplier, flood_risk, drought_stress, humidity_factor, soil_factor,
      min_def, max_def]

/-- Claim C7, amended: at the Scenario A input the computation gives
heatRisk = 11/15 ≈ 0.733, infraRisk = 0.125, compound multiplier 1.0, and
droughtStress = 0.3, so envStress = 0.09 and the total is 539/600 ≈ 0.898;
the risk level is Extreme (within the claimed High-or-Extreme band) and
`is_anomaly` is false because the strict >103 clause and the four
remaining anomaly clauses all fail. -/
theorem C7_amended_scenario_A :
    heat_risk 103 = 11/15 ∧
    infra_risk 1850 = 0.125 ∧
    compound_multiplier (heat_risk 103) (infra_risk 1850) = 1.0 ∧
    drought_stress 103 0.1 = 0.3 ∧
    calculate_risk_score 103 0.1 65 1850 30 = 539/600 ∧
    get_risk_level (539/600) = "Extreme" ∧
    detect_anomaly 103 0.1 65 1850 = false := by
  refine ⟨?_, ?_, ?_, ?_, ?_, ?_, ?_⟩ <;>
    norm_num [calculate_risk_score, heat_risk, heat_risk_b100, heat_risk_base, infra_risk,
      compound_multiplier, flood_risk, drought_stress, humidity_factor, soil_factor,
      min_def, max_def, get_risk_level, risk_thresholds, level_loop,
      detect_anomaly, anomaly_conditions]

/-- Claim C8: the recommendations list is the tier block selected by the
risk level (Extreme 6 strings, High 5, Moderate 4, Low none) followed by
the three independently evaluated conditional appends in fixed order
(temp>100 cancel-outdoor, powerDemand>1850 grid stress, precip>3.0 flood
drainage), and this is what the returned dict carries. -/
theorem C8_recommendations_structure :
    (∀ (level : String) (t p pd : ℚ),
      generate_recommendations level t p pd =
        spec_tier_block level ++
        (if t > 100 then ["🔥 EXTREME HEAT: Cancel outdoor activities"] else []) ++
        (if pd > 1850 then ["⚡ GRID STRESS: Prepare for potential rolling blackouts"] else []) ++
        (if p > 3.0 then ["🌊 FLOOD RISK: Monitor drainage systems"] else [])) ∧
    extreme_recommendations.length = 6 ∧
    high_recommendations.length = 5 ∧
    moderate_recommendations.length = 4 ∧
    spec_tier_block "Low" = [] ∧
    (∀ (now : String) (o : Observation),
      (predict_compound_risk_num now o).lookup "recommendations" =
        some (RVal.strList (generate_recommendations
          (get_risk_level (calculate_risk_score o.temperature o.precipitation o.humidity
            o.power_demand o.soil_moisture))
          o.temperature o.precipitation o.power_demand))) := by
  refine ⟨?_, rfl, rfl, rfl, by decide, lookup_recommendations⟩
  intro level t p pd
  simp only [generate_recommendations, spec_tier_block, List.nil_append]
  split_ifs <;> simp [List.append_assoc]

/-- Claim C9 (implicit): on the error path the degraded dict has exactly
the keys error, risk_score, risk_level in that order, and each of the five
success-only fields (is_anomaly, recommendations, confidence,
infrastructure_impact, analysis_time) is absent. -/
theorem C9_degraded_result_keys (now : String) (d : InputData) (e : String)
    (h : scoring_body now d = .error e) :
    (predict_compound_risk now d).map Prod.fst = ["error", "risk_score", "risk_level"] ∧
    (predict_compound_risk now d).lookup "is_anomaly" = none ∧
    (predict_compound_risk now d).lookup "recommendations" = none ∧
    (predict_compound_risk now d).lookup "confidence" = none ∧
    (predict_compound_risk now d).lookup "infrastructure_impact" = none ∧
    (predict_compound_risk now d).lookup "analysis_time" = none := by
  unfold predict_compound_risk
  rw [h]
  exact ⟨rfl, rfl, rfl, rfl, rfl, rfl⟩

/-- Witness for C9 at a concrete non-numeric temperature. -/
theorem C9_witness_nonnumeric_temperature :
    scoring_body "t0" { temperature := some (PyVal.str "oops") } =
      .error "unsupported operand types for order comparison" ∧
    ((predict_compound_risk "t0" { temperature := some (PyVal.str "oops") }).map Prod.fst =
        ["error", "risk_score", "risk_level"] ∧
     (predict_compound_risk "t0" { temperature := some (PyVal.str "oops") }).lookup
        "is_anomaly" = none ∧
     (predict_compound_risk "t0" { temperature := some (PyVal.str "oops") }).lookup
        "recommendations" = none ∧
     (predict_compound_risk "t0" { temperature := some (PyVal.str "oops") }).lookup
        "confidence" = none ∧
     (predict_compound_risk "t0" { temperature := some (PyVal.str "oops") }).lookup
        "infrastructure_impact" = none ∧
     (predict_compound_risk "t0" { temperature := some (PyVal.str "oops") }).lookup
        "analysis_time" = none) :=
  ⟨rfl, C9_degraded_result_keys "t0" { temperature := some (PyVal.str "oops") }
    "unsupported operand types for order comparison" rfl⟩

/-- Claim C10 (implicit): the returned risk_score and confidence fields are
the internal values rounded to 3 decimals while risk_level (and the
confidence formula input) use the unrounded internal score; at the
observation with precipitation 2.9995 the unrounded score 0.5999 rounds to
0.6, so the returned risk_score (0.6, High bucket) and the returned
risk_level (Moderate) come from different buckets. -/
theorem C10_rounded_fields_vs_unrounded_level :
    (∀ (now : String) (o : Observation),
      (predict_compound_risk_num now o).lookup "risk_score" =
        some (RVal.num (round3 (calculate_risk_score o.temperature o.precipitation
          o.humidity o.power_demand o.soil_moisture))) ∧
      (predict_compound_risk_num now o).lookup "confidence" =
        some (RVal.num (round3 (min 0.95 (0.7 + calculate_risk_score o.temperature
          o.precipitation o.humidity o.power_demand o.soil_moisture * 0.25)))) ∧
      (predict_compound_risk_num now o).lookup "risk_level" =
        some (RVal.str (get_risk_level (calculate_risk_score o.temperature o.precipitation
          o.humidity o.power_demand o.soil_moisture)))) ∧
    calculate_risk_score 75 2.9995 50 1500 30 = 0.5999 ∧
    round3 0.5999 = 0.6 ∧
    get_risk_level 0.5999 = "Moderate" ∧
    get_risk_level 0.6 = "High" := by
  refine ⟨fun now o => ⟨lookup_risk_score now o, lookup_confidence now o,
    lookup_risk_level now o⟩, ?_, ?_, ?_, ?_⟩ <;>
    norm_num [calculate_risk_score, heat_risk, heat_risk_b100, heat_risk_base, infra_risk,
      compound_multiplier, flood_risk, drought_stress, humidity_factor, soil_factor,
      min_def, max_def, round3, round_half_even, get_risk_level, risk_thresholds, level_loop]

end CDA
